import Mathlib

/-!
Verification of the grant-reconciliation, privilege-decoding, audit-rule
stored-procedure protocol and connection-registry logic of a Terraform
provider for Cloud SQL MySQL, shallowly embedded from the Go sources under
internal/provider.

Modelling conventions:
- Terraform framework string values (types.String) are `Option String`
  (`none` models a null value, `ValueString` of null is the empty string).
- SQL query results are passed in explicitly: a row that may be absent is
  an `Option`, a fallible driver call is an `Except String`.
- Database connection handles are identified by natural numbers; equal
  numbers model reference-identical handles.
-/

/-! ## Case folding (Go strings.EqualFold, restricted to ASCII) -/

/-- ASCII lower-casing of one character; models Go case folding on the ASCII
privilege and identifier alphabet this provider works with. -/
def lowerChar (c : Char) : Char :=
  if 65 ≤ c.toNat && c.toNat ≤ 90 then Char.ofNat (c.toNat + 32) else c

/-- ASCII lower-casing of a string. -/
def lowerStr (s : String) : String :=
  String.mk (s.data.map lowerChar)

/-- Model of Go strings.EqualFold on ASCII strings: equality after case
folding. -/
def strEqualFold (a b : String) : Bool :=
  lowerStr a == lowerStr b

/-! ## Grant reconciliation (databaseGrantResource.Read, lines 172-186) -/

/-- Inner loop of the reconcile pass in databaseGrantResource.Read: scan the
desired (state) privileges for the first case-insensitive match of the
observed privilege, mirroring the found-and-break pattern of the Go loop. -/
def findMatch (desired : List String) (o : String) : Option String :=
  match desired with
  | [] => none
  | d :: rest => if strEqualFold d o then some d else findMatch rest o

/-- One iteration of the outer reconcile loop: emit the matching desired
privilege when one exists, otherwise emit the observed privilege verbatim. -/
def reconcileOne (desired : List String) (o : String) : String :=
  match findMatch desired o with
  | some d => d
  | none => o

/-- The reconcile pass of databaseGrantResource.Read: iterate observed
privileges in order, appending for each either the matching desired entry or
the observed entry itself. -/
def reconcilePrivileges (desired observed : List String) : List String :=
  observed.map (reconcileOne desired)

/-! ## The privilege row (mysql.db) and its decoder -/

/-- One row of the mysql.db privilege table as scanned by
databaseGrantResource.Read. -/
structure dbRow where
  Host : String
  Db : String
  User : String
  SelectPriv : String
  InsertPriv : String
  UpdatePriv : String
  DeletePriv : String
  CreatePriv : String
  DropPriv : String
  GrantPriv : String
  ReferencesPriv : String
  IndexPriv : String
  AlterPriv : String
  CreateTmpTablePriv : String
  LockTablesPriv : String
  CreateViewPriv : String
  ShowViewPriv : String
  CreateRoutinePriv : String
  AlterRoutinePriv : String
  ExecutePriv : String
  EventPriv : String
  TriggerPriv : String
  deriving DecidableEq

namespace dbRow

def selectPrivBool (r : dbRow) : Bool := r.SelectPriv == "Y"

def insertPrivBool (r : dbRow) : Bool := r.InsertPriv == "Y"

def updatePrivBool (r : dbRow) : Bool := r.UpdatePriv == "Y"

def deletePrivBool (r : dbRow) : Bool := r.DeletePriv == "Y"

def createPrivBool (r : dbRow) : Bool := r.CreatePriv == "Y"

def dropPrivBool (r : dbRow) : Bool := r.DropPriv == "Y"

def grantPrivBool (r : dbRow) : Bool := r.GrantPriv == "Y"

def referencesPrivBool (r : dbRow) : Bool := r.ReferencesPriv == "Y"

def indexPrivBool (r : dbRow) : Bool := r.IndexPriv == "Y"

def alterPrivBool (r : dbRow) : Bool := r.AlterPriv == "Y"

def createTmpTablePrivBool (r : dbRow) : Bool := r.CreateTmpTablePriv == "Y"

def lockTablesPrivBool (r : dbRow) : Bool := r.LockTablesPriv == "Y"

def createViewPrivBool (r : dbRow) : Bool := r.CreateViewPriv == "Y"

def showViewPrivBool (r : dbRow) : Bool := r.ShowViewPriv == "Y"

def createRoutinePrivBool (r : dbRow) : Bool := r.CreateRoutinePriv == "Y"

def alterRoutinePrivBool (r : dbRow) : Bool := r.AlterRoutinePriv == "Y"

def executePrivBool (r : dbRow) : Bool := r.ExecutePriv == "Y"

def eventPrivBool (r : dbRow) : Bool := r.EventPriv == "Y"

def triggerPrivBool (r : dbRow) : Bool := r.TriggerPriv == "Y"

/-- dbRow.allPrivileges: build the observed privilege list by checking the
flags in the fixed source order, appending the keyword for each flag that is
set; each Go conditional append is one conditional singleton. -/
def allPrivileges (r : dbRow) : List String :=
  (if r.selectPrivBool then ["SELECT"] else []) ++
  (if r.insertPrivBool then ["INSERT"] else []) ++
  (if r.updatePrivBool then ["UPDATE"] else []) ++
  (if r.deletePrivBool then ["DELETE"] else []) ++
  (if r.createPrivBool then ["CREATE"] else []) ++
  (if r.dropPrivBool then ["DROP"] else []) ++
  (if r.referencesPrivBool then ["REFERENCES"] else []) ++
  (if r.indexPrivBool then ["INDEX"] else []) ++
  (if r.alterPrivBool then ["ALTER"] else []) ++
  (if r.createTmpTablePrivBool then ["CREATE TEMPORARY TABLES"] else []) ++
  (if r.lockTablesPrivBool then ["LOCK TABLES"] else []) ++
  (if r.createViewPrivBool then ["CREATE VIEW"] else []) ++
  (if r.showViewPrivBool then ["SHOW VIEW"] else []) ++
  (if r.createRoutinePrivBool then ["CREATE ROUTINE"] else []) ++
  (if r.alterRoutinePrivBool then ["ALTER ROUTINE"] else []) ++
  (if r.executePrivBool then ["EXECUTE"] else []) ++
  (if r.eventPrivBool then ["EVENT"] else []) ++
  (if r.triggerPrivBool then ["TRIGGER"] else [])

/-- dbRow.withGrantOption: the with-grant-option flag is a pure read of the
Grant_priv column. -/
def withGrantOption (r : dbRow) : Bool := r.grantPrivBool

end dbRow

/-- The fixed privilege catalog in the order dbRow.allPrivileges checks it:
each entry pairs the flag projection with the emitted keyword. -/
def privilegeCatalog : List ((dbRow → String) × String) :=
  [(dbRow.SelectPriv, "SELECT"),
   (dbRow.InsertPriv, "INSERT"),
   (dbRow.UpdatePriv, "UPDATE"),
   (dbRow.DeletePriv, "DELETE"),
   (dbRow.CreatePriv, "CREATE"),
   (dbRow.DropPriv, "DROP"),
   (dbRow.ReferencesPriv, "REFERENCES"),
   (dbRow.IndexPriv, "INDEX"),
   (dbRow.AlterPriv, "ALTER"),
   (dbRow.CreateTmpTablePriv, "CREATE TEMPORARY TABLES"),
   (dbRow.LockTablesPriv, "LOCK TABLES"),
   (dbRow.CreateViewPriv, "CREATE VIEW"),
   (dbRow.ShowViewPriv, "SHOW VIEW"),
   (dbRow.CreateRoutinePriv, "CREATE ROUTINE"),
   (dbRow.AlterRoutinePriv, "ALTER ROUTINE"),
   (dbRow.ExecutePriv, "EXECUTE"),
   (dbRow.EventPriv, "EVENT"),
   (dbRow.TriggerPriv, "TRIGGER")]

/-- The 18 privilege keywords in catalog order. -/
def catalogNames : List String := privilegeCatalog.map Prod.snd

/-! ## The grant resource model and its operations -/

/-- ValueString of a Terraform string value: the empty string when null. -/
def valueString (s : Option String) : String := s.getD ""

/-- The grant resource state/plan model (databaseGrantResourceModel); privilege
elements are known strings. -/
structure databaseGrantResourceModel where
  Database : Option String
  User : Option String
  Role : Option String
  Host : Option String
  Privileges : List String
  WithGrantOption : Bool
  deriving DecidableEq

namespace databaseGrantResourceModel

/-- databaseGrantResourceModel.userOrRole: error when user and role are both
null, else the user value when user is non-null, else the role value. -/
def userOrRole (m : databaseGrantResourceModel) : Except String String :=
  if m.User.isNone && m.Role.isNone then
    Except.error "user nor role are not filled in"
  else if !m.User.isNone then
    Except.ok (valueString m.User)
  else
    Except.ok (valueString m.Role)

def privilegesAsString (m : databaseGrantResourceModel) : List String :=
  m.Privileges

def databaseAsString (m : databaseGrantResourceModel) : String :=
  valueString m.Database

def hostAsString (m : databaseGrantResourceModel) : String :=
  valueString m.Host

def withGrantOption (m : databaseGrantResourceModel) : Bool :=
  m.WithGrantOption

end databaseGrantResourceModel

/-- databaseGrantResource.Read given the prior state and the result of the
mysql.db privilege query (`none` models the driver returning no row, which
surfaces as a Scan error in the Go code): errors when user and role are both
null, errors when the query fails, and otherwise persists the reconciled
privilege list and the observed grant-option flag. -/
def grantRead (state : databaseGrantResourceModel) (queryResult : Option dbRow) :
    Except String databaseGrantResourceModel :=
  match state.userOrRole with
  | Except.error e =>
      Except.error ("No value for user nor role, unexpected error: " ++ e)
  | Except.ok _ =>
    match queryResult with
    | none =>
        Except.error "Unable to read data from the database privileges table"
    | some row =>
        Except.ok { state with
          Privileges := reconcilePrivileges state.Privileges row.allPrivileges,
          WithGrantOption := row.withGrantOption }

/-- The GRANT statement text built by databaseGrantResource.Create. -/
def grantSqlStatement (m : databaseGrantResourceModel) (userOrRole : String) : String :=
  let base := "GRANT " ++ String.intercalate ", " m.privilegesAsString ++
    " ON " ++ m.databaseAsString ++ ".* TO " ++ userOrRole ++
    "@\x27" ++ m.hostAsString ++ "\x27"
  if m.withGrantOption then base ++ " WITH GRANT OPTION" else base

/-- Body of databaseGrantResource.Create given the plan and the driver outcome
of the GRANT execution; the second component collects every SQL statement
actually issued to the database. -/
def grantCreate (plan : databaseGrantResourceModel) (execResult : Except String Unit) :
    Except String databaseGrantResourceModel × List String :=
  match plan.userOrRole with
  | Except.error e =>
      (Except.error ("No value for user nor role, unexpected error: " ++ e), [])
  | Except.ok uor =>
    let stmt := grantSqlStatement plan uor
    match execResult with
    | Except.error e =>
        (Except.error ("Unable to grant permissions to " ++ uor ++
          ", unexpected error: " ++ e), [stmt])
    | Except.ok _ => (Except.ok plan, [stmt])

/-- Contract of resourcevalidator.Conflicting from the Terraform plugin
framework (external dependency): validation passes when at most one of the
listed attributes has a non-null value. -/
def conflictingOk (attrs : List (Option String)) : Bool :=
  (attrs.filter Option.isSome).length ≤ 1

/-- Contract of resourcevalidator.AtLeastOneOf from the Terraform plugin
framework (external dependency): validation passes when at least one of the
listed attributes has a non-null value. -/
def atLeastOneOfOk (attrs : List (Option String)) : Bool :=
  attrs.any Option.isSome

/-- The validators declared by databaseGrantResource.ConfigValidators,
Conflicting(user, role) and AtLeastOneOf(user, role), combined as the
framework does: the configuration is valid only when both pass. -/
def grantConfigValidatorsOk (m : databaseGrantResourceModel) : Bool :=
  conflictingOk [m.User, m.Role] && atLeastOneOfOk [m.User, m.Role]

/-- The create operation as executed by the framework: the declared config
validators run before Create, so an invalid user/role combination stops the
operation before the Create body builds or issues any SQL. -/
def grantCreatePipeline (plan : databaseGrantResourceModel)
    (execResult : Except String Unit) :
    Except String databaseGrantResourceModel × List String :=
  if grantConfigValidatorsOk plan then grantCreate plan execResult
  else (Except.error "Invalid combination of user and role arguments", [])

/-! ## The audit-rule resource -/

/-- The audit rule plan/state model (auditRuleResourceModel); the id is a
computed Int64, null before creation. -/
structure auditRuleResourceModel where
  Id : Option Int
  User : Option String
  Database : Option String
  Object : Option String
  Operation : Option String
  OpsResult : Option String
  deriving DecidableEq

/-- One row returned by the cloudsql_list_audit_rule procedure. -/
structure auditRuleRow where
  Id : Int
  User : String
  Dbname : String
  Object : String
  Operation : String
  OpResult : String
  deriving DecidableEq

/-- auditRuleRow.equalsModel: the five non-id fields compared
case-insensitively against the model, with the early-return structure of the
Go code. -/
def auditRuleRow.equalsModel (row : auditRuleRow) (model : auditRuleResourceModel) : Bool :=
  if !(strEqualFold row.User (valueString model.User)) then false
  else if !(strEqualFold row.Dbname (valueString model.Database)) then false
  else if !(strEqualFold row.Object (valueString model.Object)) then false
  else if !(strEqualFold row.Operation (valueString model.Operation)) then false
  else if !(strEqualFold row.OpResult (valueString model.OpsResult)) then false
  else true

/-- auditRuleResource.auditRuleStoredProcedureResponse applied to the scanned
session variables: outval is the Int16 read into sql.NullInt16 (0 when NULL),
outmsg the message string; the Go code fails exactly when outval is strictly
positive. -/
def auditRuleStoredProcedureResponse (outval : Int) (outmsg : String) :
    Except String Unit :=
  if outval > 0 then Except.error outmsg else Except.ok ()

/-- The correlation scan of auditRuleResource.Create: walk the listed rows,
stopping at the first row equal to the plan, with -1 as the not-found
sentinel. -/
def scanForId (rows : List auditRuleRow) (plan : auditRuleResourceModel) : Int :=
  match rows with
  | [] => -1
  | r :: rest => if r.equalsModel plan then r.Id else scanForId rest plan

/-- auditRuleResource.Create given the plan and the outcomes of its four
database interactions in order: the create procedure call, the first
confirmation read (status, message), the list procedure call, and the second
confirmation read. On success the plan is persisted with the correlated id. -/
def auditRuleCreate (plan : auditRuleResourceModel)
    (execResult : Except String Unit)
    (confirm1 : Int × String)
    (listResult : Except String (List auditRuleRow))
    (confirm2 : Int × String) :
    Except String auditRuleResourceModel :=
  match execResult with
  | Except.error e =>
      Except.error ("An unexpected error occured while creating the audit rule: " ++ e)
  | Except.ok _ =>
  match auditRuleStoredProcedureResponse confirm1.1 confirm1.2 with
  | Except.error e =>
      Except.error ("An unexpected error occured while creating the audit rule: " ++ e)
  | Except.ok _ =>
  match listResult with
  | Except.error e =>
      Except.error ("An unexpected error occured while creating the audit rule: " ++ e)
  | Except.ok rows =>
  match auditRuleStoredProcedureResponse confirm2.1 confirm2.2 with
  | Except.error e =>
      Except.error ("An unexpected error occured while creating the audit rule: " ++ e)
  | Except.ok _ =>
    let id := scanForId rows plan
    if id == -1 then
      Except.error ("An unexpected error occured while creating the audit rule: " ++
        "the audit rule is not found after creation")
    else
      Except.ok { plan with Id := some id }

/-! ## The connection registry (Config.connectToMySQL) -/

/-- The provider Config restricted to what connectToMySQL touches: the
registry mapping a resolved connection string to a pooled handle, modelled as
an association list with handles identified by natural numbers (equal numbers
mean the reference-identical pooled instance). -/
structure Config where
  dbRegistry : List (String × Nat)
  deriving DecidableEq

/-- Config.connectToMySQL given the outcome the driver would produce if a new
handle had to be opened: return the cached handle when the resolved string is
registered; otherwise open, cache nothing on failure, and cache then return
the new handle on success. The registry resulting from the call is returned
alongside. -/
def connectToMySQL (c : Config) (dsn : String) (openResult : Except String Nat) :
    Except String Nat × Config :=
  match c.dbRegistry.lookup dsn with
  | some db => (Except.ok db, c)
  | none =>
    match openResult with
    | Except.error e => (Except.error e, c)
    | Except.ok db =>
        (Except.ok db, { c with dbRegistry := (dsn, db) :: c.dbRegistry })

/-! ## Concrete inputs used by witnesses and counterexamples -/

/-- A privilege row with every flag unset. -/
def allNoRow : dbRow :=
  { Host := "%", Db := "appdb", User := "alice",
    SelectPriv := "N", InsertPriv := "N", UpdatePriv := "N", DeletePriv := "N",
    CreatePriv := "N", DropPriv := "N", GrantPriv := "N", ReferencesPriv := "N",
    IndexPriv := "N", AlterPriv := "N", CreateTmpTablePriv := "N",
    LockTablesPriv := "N", CreateViewPriv := "N", ShowViewPriv := "N",
    CreateRoutinePriv := "N", AlterRoutinePriv := "N", ExecutePriv := "N",
    EventPriv := "N", TriggerPriv := "N" }

/-- A privilege row with every flag set. -/
def allYesRow : dbRow :=
  { Host := "%", Db := "appdb", User := "alice",
    SelectPriv := "Y", InsertPriv := "Y", UpdatePriv := "Y", DeletePriv := "Y",
    CreatePriv := "Y", DropPriv := "Y", GrantPriv := "Y", ReferencesPriv := "Y",
    IndexPriv := "Y", AlterPriv := "Y", CreateTmpTablePriv := "Y",
    LockTablesPriv := "Y", CreateViewPriv := "Y", ShowViewPriv := "Y",
    CreateRoutinePriv := "Y", AlterRoutinePriv := "Y", ExecutePriv := "Y",
    EventPriv := "Y", TriggerPriv := "Y" }

/-- A grant state with a user principal and one desired privilege. -/
def grantStateEx : databaseGrantResourceModel :=
  { Database := some "appdb", User := some "alice", Role := none,
    Host := some "%", Privileges := ["SELECT"], WithGrantOption := false }

/-- A grant plan with both user and role set. -/
def grantStateBoth : databaseGrantResourceModel :=
  { Database := some "appdb", User := some "alice", Role := some "admins",
    Host := some "%", Privileges := ["SELECT"], WithGrantOption := false }

/-- An audit rule plan before creation. -/
def auditPlanEx : auditRuleResourceModel :=
  { Id := none, User := some "alice", Database := some "appdb",
    Object := some "*", Operation := some "SELECT", OpsResult := some "ALL" }

/-- A listed audit-rule row matching auditPlanEx with server id 5. -/
def auditRowEx : auditRuleRow :=
  { Id := 5, User := "ALICE", Dbname := "appdb", Object := "*",
    Operation := "select", OpResult := "all" }

/-- A listed audit-rule row matching auditPlanEx whose id collides with the
not-found sentinel. -/
def auditRowNeg : auditRuleRow :=
  { Id := -1, User := "alice", Dbname := "appdb", Object := "*",
    Operation := "SELECT", OpResult := "ALL" }

example : catalogNames.length = 18 := by decide

example : strEqualFold "select" "SELECT" = true := by decide

example : reconcilePrivileges ["select"] ["SELECT"] = ["select"] := by decide

example : auditRowEx.equalsModel auditPlanEx = true := by decide

example : grantRead grantStateEx (some allNoRow) =
    Except.ok { grantStateEx with Privileges := [], WithGrantOption := false } := by rfl

example : auditRuleCreate auditPlanEx (Except.ok ()) (0, "") (Except.ok [auditRowEx]) (0, "") =
    Except.ok { auditPlanEx with Id := some 5 } := by rfl

/-! ## Facts about case folding and the reconcile loop -/

theorem strEqualFold_eq_true_iff (a b : String) :
    strEqualFold a b = true ↔ lowerStr a = lowerStr b := by
  simp [strEqualFold]

theorem strEqualFold_refl (a : String) : strEqualFold a a = true := by
  simp [strEqualFold]

theorem strEqualFold_symm {a b : String} (h : strEqualFold a b = true) :
    strEqualFold b a = true := by
  rw [strEqualFold_eq_true_iff] at h ⊢
  exact h.symm

theorem strEqualFold_trans {a b c : String} (h1 : strEqualFold a b = true)
    (h2 : strEqualFold b c = true) : strEqualFold a c = true := by
  rw [strEqualFold_eq_true_iff] at h1 h2 ⊢
  exact h1.trans h2

theorem findMatch_eq_find (desired : List String) (o : String) :
    findMatch desired o = desired.find? (fun d => strEqualFold d o) := by
  induction desired with
  | nil => rfl
  | cons d rest ih =>
    simp only [findMatch, List.find?]
    cases h : strEqualFold d o <;> simp [h, ih]

theorem findMatch_some_fold {desired : List String} {o d : String}
    (h : findMatch desired o = some d) : strEqualFold d o = true := by
  induction desired with
  | nil => simp [findMatch] at h
  | cons a rest ih =>
    by_cases ha : strEqualFold a o = true
    · simp [findMatch, ha] at h
      rw [← h]
      exact ha
    · simp [findMatch, ha] at h
      exact ih h

theorem findMatch_cons_of_false {d o : String} (desired : List String)
    (h : strEqualFold d o = false) :
    findMatch (d :: desired) o = findMatch desired o := by
  simp [findMatch, h]

theorem reconcileOne_fold (desired : List String) (o : String) :
    strEqualFold (reconcileOne desired o) o = true := by
  rcases h : findMatch desired o with _ | d
  · simp [reconcileOne, h, strEqualFold_refl]
  · simp [reconcileOne, h, findMatch_some_fold h]

/-- In a list of pairwise non-fold-equal keys mapped through a function that
preserves fold-identity, the first fold-match of a member key is its own
image. -/
theorem findMatch_map_self (f : String → String)
    (hf : ∀ x, strEqualFold (f x) x = true) (O : List String)
    (h : O.Pairwise (fun a b => strEqualFold a b = false)) (o : String)
    (ho : o ∈ O) : findMatch (O.map f) o = some (f o) := by
  induction O with
  | nil => cases ho
  | cons a rest ih =>
    rcases List.pairwise_cons.mp h with ⟨ha, hrest⟩
    rcases List.mem_cons.mp ho with rfl | hm
    · simp [List.map, findMatch, hf o]
    · have hao : strEqualFold a o = false := ha o hm
      have hfao : strEqualFold (f a) o = false := by
        cases hx : strEqualFold (f a) o
        · rfl
        · have h1 : strEqualFold a (f a) = true := strEqualFold_symm (hf a)
          have h2 : strEqualFold a o = true := strEqualFold_trans h1 hx
          rw [hao] at h2
          cases h2
      rw [List.map_cons, findMatch_cons_of_false _ hfao]
      exact ih hrest hm

/-- Reconciliation is a fixed point whenever the observed list has no two
case-insensitively equal entries. -/
theorem reconcile_fixed_general (D O : List String)
    (h : O.Pairwise (fun a b => strEqualFold a b = false)) :
    reconcilePrivileges (reconcilePrivileges D O) O = reconcilePrivileges D O := by
  unfold reconcilePrivileges
  apply List.map_congr_left
  intro o ho
  have hm := findMatch_map_self (reconcileOne D) (reconcileOne_fold D) O h o ho
  simp [reconcileOne, hm]

/-! ## Facts about the privilege decoder -/

/-- Filtering a flag-keyword table and projecting the keywords is the same as
concatenating one conditional singleton per entry. -/
theorem filter_map_eq (r : dbRow) (l : List ((dbRow → String) × String)) :
    (l.filter (fun p => p.1 r == "Y")).map Prod.snd
      = l.foldr (fun p acc => (if p.1 r == "Y" then [p.2] else []) ++ acc) [] := by
  induction l with
  | nil => rfl
  | cons a rest ih =>
    cases h : (a.1 r == "Y")
    · rw [List.filter_cons, if_neg (by simp [h]), List.foldr_cons,
        if_neg (by simp [h]), List.nil_append, ih]
    · rw [List.filter_cons, if_pos (by simp [h]), List.map_cons, List.foldr_cons,
        if_pos (by simp [h]), List.cons_append, List.nil_append, ih]

set_option maxHeartbeats 1600000 in
/-- dbRow.allPrivileges is exactly the catalog filtered by the affirmative
marker and projected to keywords. -/
theorem allPrivileges_eq_filter (r : dbRow) :
    r.allPrivileges = (privilegeCatalog.filter (fun p => p.1 r == "Y")).map Prod.snd := by
  rw [filter_map_eq]
  simp only [privilegeCatalog, List.foldr_cons, List.foldr_nil]
  rw [List.append_nil]
  simp only [dbRow.allPrivileges, dbRow.selectPrivBool, dbRow.insertPrivBool,
    dbRow.updatePrivBool, dbRow.deletePrivBool, dbRow.createPrivBool,
    dbRow.dropPrivBool, dbRow.referencesPrivBool, dbRow.indexPrivBool,
    dbRow.alterPrivBool, dbRow.createTmpTablePrivBool, dbRow.lockTablesPrivBool,
    dbRow.createViewPrivBool, dbRow.showViewPrivBool, dbRow.createRoutinePrivBool,
    dbRow.alterRoutinePrivBool, dbRow.executePrivBool, dbRow.eventPrivBool,
    dbRow.triggerPrivBool, List.append_assoc]

/-- The decoded privilege list of any row is a sublist of the catalog names. -/
theorem allPrivileges_sublist (r : dbRow) :
    List.Sublist r.allPrivileges catalogNames := by
  rw [allPrivileges_eq_filter]
  exact (List.filter_sublist _).map Prod.snd

theorem catalogNames_pairwise :
    catalogNames.Pairwise (fun a b => strEqualFold a b = false) := by decide

theorem allPrivileges_pairwise (r : dbRow) :
    r.allPrivileges.Pairwise (fun a b => strEqualFold a b = false) :=
  catalogNames_pairwise.sublist (allPrivileges_sublist r)

/-! ## Claim theorems -/

/-- C1: for every desired privilege list and every observed privilege list
(the decode of any privilege-table row), the grant reconciliation is a fixed
point: re-running the reconcile loop with its own output as the desired list
returns that output unchanged. -/
theorem reconcile_fixed_point (D : List String) (r : dbRow) :
    reconcilePrivileges (reconcilePrivileges D r.allPrivileges) r.allPrivileges
      = reconcilePrivileges D r.allPrivileges :=
  reconcile_fixed_general D r.allPrivileges (allPrivileges_pairwise r)

/-- C2: the reconciled list pairs up with the observed list position by
position, each emitted privilege matching its observed counterpart
case-insensitively; in particular reconcile never invents a privilege absent
from the observed list and never drops one present in it (the lengths agree
and every observed element contributes exactly one matching entry). -/
theorem reconcile_preserves_observed (D O : List String) :
    List.Forall₂ (fun x o => strEqualFold x o = true) (reconcilePrivileges D O) O
      ∧ (reconcilePrivileges D O).length = O.length := by
  have h : List.Forall₂ (fun x o => strEqualFold x o = true)
      (reconcilePrivileges D O) O := by
    induction O with
    | nil => exact List.Forall₂.nil
    | cons a rest ih => exact List.Forall₂.cons (reconcileOne_fold D a) ih
  exact ⟨h, h.length_eq⟩

/-- C3: for each observed privilege, reconcile emits the first
case-insensitively matching desired entry with its original casing when one
exists, and the observed entry verbatim otherwise; in particular
reconcile([select], [SELECT]) = [select] and
reconcile([], [SELECT, INSERT]) = [SELECT, INSERT]. -/
theorem reconcile_case_preservation :
    (∀ D O : List String, reconcilePrivileges D O
        = O.map (fun o => (D.find? (fun d => strEqualFold d o)).getD o))
      ∧ reconcilePrivileges ["select"] ["SELECT"] = ["select"]
      ∧ reconcilePrivileges [] ["SELECT", "INSERT"] = ["SELECT", "INSERT"] := by
  refine ⟨?_, by decide, by decide⟩
  intro D O
  unfold reconcilePrivileges
  apply List.map_congr_left
  intro o _
  rcases h : findMatch D o with _ | d <;>
    rw [findMatch_eq_find] at h <;>
    simp [reconcileOne, findMatch_eq_find, h]

/-- C7 counterexample: the fixed catalog applied by the decoder has 18
privilege names, not 17; the decode of a row with every flag set yields all
18 names. -/
theorem catalog_has_eighteen_names :
    catalogNames.length = 18 ∧ allYesRow.allPrivileges.length = 18 :=
  ⟨by decide, by decide⟩

/-- C7 amended: the privilege catalog used by decode is a fixed ordered
catalog of exactly 18 privilege names, applied in its defined order when
converting an observed row to an ordered privilege list: a privilege is
included in the decoded sequence exactly when its corresponding flag equals
the affirmative marker Y. -/
theorem decode_is_ordered_catalog_filter :
    catalogNames.length = 18
      ∧ ∀ r : dbRow, r.allPrivileges
          = (privilegeCatalog.filter (fun p => p.1 r == "Y")).map Prod.snd :=
  ⟨by decide, allPrivileges_eq_filter⟩

/-- C4 counterexample: when the privilege row exists but carries no
affirmative flag, the observed data yields zero privileges yet Read succeeds
and persists an empty reconciled privilege set instead of failing. -/
theorem grantRead_empty_flags_success :
    allNoRow.allPrivileges = []
      ∧ grantRead grantStateEx (some allNoRow)
          = Except.ok { grantStateEx with Privileges := [], WithGrantOption := false } :=
  ⟨by decide, rfl⟩

/-- C4 amended: with a valid principal, a grant Read whose privilege-table
row is missing entirely fails with a read error; but when the row exists with
no affirmative flags set, Read succeeds and persists the empty reconciled
privilege set. -/
theorem grantRead_missing_vs_empty (s : databaseGrantResourceModel)
    (h : ¬(s.User = none ∧ s.Role = none)) :
    grantRead s none
        = Except.error "Unable to read data from the database privileges table"
      ∧ ∀ r : dbRow, r.allPrivileges = [] →
          grantRead s (some r)
            = Except.ok { s with Privileges := [], WithGrantOption := r.grantPrivBool } := by
  have huor : ∃ u, s.userOrRole = Except.ok u := by
    rcases hU : s.User with _ | u
    · rcases hR : s.Role with _ | v
      · exact absurd ⟨hU, hR⟩ h
      · exact ⟨v, by simp [databaseGrantResourceModel.userOrRole, hU, hR, valueString]⟩
    · exact ⟨u, by simp [databaseGrantResourceModel.userOrRole, hU, valueString]⟩
  rcases huor with ⟨u, hu⟩
  constructor
  · simp [grantRead, hu]
  · intro r hr
    simp [grantRead, hu, hr, reconcilePrivileges, dbRow.withGrantOption]

theorem grantRead_missing_vs_empty_witness :
    grantRead grantStateEx none
      = Except.error "Unable to read data from the database privileges table" :=
  (grantRead_missing_vs_empty grantStateEx (by decide)).1

/-- C5 counterexample: a status code of -1 is nonzero, yet the confirm step
succeeds instead of failing with the session message. -/
theorem auditRuleResponse_negative_status_ok :
    auditRuleStoredProcedureResponse (-1) "boom" = Except.ok ()
      ∧ (-1 : Int) ≠ 0 :=
  ⟨rfl, by decide⟩

/-- C5 amended: the audit-rule confirm step fails, carrying the session
message as its error detail, exactly when the returned status code is
strictly positive; a status code of zero or below proceeds as a success. -/
theorem auditRuleResponse_spec (v : Int) (m : String) :
    (auditRuleStoredProcedureResponse v m = Except.error m ↔ 0 < v)
      ∧ (auditRuleStoredProcedureResponse v m = Except.ok () ↔ v ≤ 0) := by
  unfold auditRuleStoredProcedureResponse
  by_cases h : v > 0 <;> · simp [h]; try omega

/-- C10: userOrRole errors exactly when user and role are both null; whenever
user is non-null it returns the user value without error, even when role is
also non-null, so user takes precedence and the both-set case is not rejected
by this function. -/
theorem userOrRole_user_precedence (m : databaseGrantResourceModel) :
    (m.userOrRole = Except.error "user nor role are not filled in"
        ↔ (m.User = none ∧ m.Role = none))
      ∧ ∀ u, m.User = some u → m.userOrRole = Except.ok u := by
  constructor
  · rcases hU : m.User with _ | u <;> rcases hR : m.Role with _ | v <;>
      simp [databaseGrantResourceModel.userOrRole, hU, hR, valueString]
  · intro u hu
    simp [databaseGrantResourceModel.userOrRole, hu, valueString]

theorem userOrRole_user_precedence_witness :
    grantStateBoth.userOrRole = Except.ok "alice" :=
  (userOrRole_user_precedence grantStateBoth).2 "alice" rfl

theorem scanForId_of_no_match {rows : List auditRuleRow}
    {plan : auditRuleResourceModel}
    (h : ∀ r ∈ rows, r.equalsModel plan = false) :
    scanForId rows plan = -1 := by
  induction rows with
  | nil => rfl
  | cons a rest ih =>
    have ha := h a (List.mem_cons_self a rest)
    simp only [scanForId, ha, Bool.false_eq_true, if_false]
    exact ih (fun r hr => h r (List.mem_cons_of_mem a hr))

theorem scanForId_of_find {rows : List auditRuleRow}
    {plan : auditRuleResourceModel} {r : auditRuleRow}
    (h : rows.find? (fun x => x.equalsModel plan) = some r) :
    scanForId rows plan = r.Id := by
  induction rows with
  | nil => simp [List.find?] at h
  | cons a rest ih =>
    cases ha : a.equalsModel plan
    · simp only [List.find?_cons, ha] at h
      simp only [scanForId, ha, Bool.false_eq_true, if_false]
      exact ih h
    · simp only [List.find?_cons, ha] at h
      have har : a = r := by simpa using h
      subst har
      simp [scanForId, ha]

/-- C6 counterexample: a listed row matching the plan whose server id is -1
collides with the not-found sentinel, so create fails with the correlation
error instead of carrying the id of the first matching row. -/
theorem auditRuleCreate_sentinel_collision :
    auditRowNeg.equalsModel auditPlanEx = true
      ∧ auditRuleCreate auditPlanEx (Except.ok ()) (0, "") (Except.ok [auditRowNeg]) (0, "")
          = Except.error ("An unexpected error occured while creating the audit rule: " ++
              "the audit rule is not found after creation") :=
  ⟨by decide, rfl⟩

/-- C6 amended: after a successful invocation and two successful
confirmations, if the full scan of the listed rows contains no row whose five
fields match the plan case-insensitively, create fails with the
not-found-after-creation correlation error and persists no state; when a
match exists and the first matching row carries an id other than -1, the
resource carries that id (a first matching row with id -1 is
indistinguishable from the not-found sentinel and also yields the
correlation error). -/
theorem auditRuleCreate_correlation (plan : auditRuleResourceModel)
    (rows : List auditRuleRow) (v1 v2 : Int) (m1 m2 : String)
    (h1 : v1 ≤ 0) (h2 : v2 ≤ 0) :
    ((∀ r ∈ rows, r.equalsModel plan = false) →
        auditRuleCreate plan (Except.ok ()) (v1, m1) (Except.ok rows) (v2, m2)
          = Except.error ("An unexpected error occured while creating the audit rule: " ++
              "the audit rule is not found after creation"))
      ∧ ∀ r, rows.find? (fun x => x.equalsModel plan) = some r → r.Id ≠ -1 →
          auditRuleCreate plan (Except.ok ()) (v1, m1) (Except.ok rows) (v2, m2)
            = Except.ok { plan with Id := some r.Id } := by
  have hc1 : auditRuleStoredProcedureResponse v1 m1 = Except.ok () := by
    rw [auditRuleStoredProcedureResponse, if_neg (by omega)]
  have hc2 : auditRuleStoredProcedureResponse v2 m2 = Except.ok () := by
    rw [auditRuleStoredProcedureResponse, if_neg (by omega)]
  constructor
  · intro hno
    simp [auditRuleCreate, hc1, hc2, scanForId_of_no_match hno]
  · intro r hf hneg
    have hid : (scanForId rows plan == -1) = false := by
      simp [scanForId_of_find hf, hneg]
    simp [auditRuleCreate, hc1, hc2, hid, scanForId_of_find hf]
    exact hneg

theorem auditRuleCreate_correlation_witness :
    auditRuleCreate auditPlanEx (Except.ok ()) (0, "") (Except.ok [auditRowEx]) (0, "")
      = Except.ok { auditPlanEx with Id := some 5 } :=
  (auditRuleCreate_correlation auditPlanEx [auditRowEx] 0 0 "" ""
    (by decide) (by decide)).2 auditRowEx (by decide) (by decide)

/-- C8: the connection registry acquire is idempotent: a second call with the
identical resolved connection string returns the reference-identical handle
without opening anything new and leaves the registry unchanged; and when
opening a new handle fails, nothing is cached, so the registry is unchanged
on error. -/
theorem connectToMySQL_idempotent (c : Config) (dsn : String) :
    (∀ o1 o2 h c1, connectToMySQL c dsn o1 = (Except.ok h, c1) →
        connectToMySQL c1 dsn o2 = (Except.ok h, c1))
      ∧ ∀ o e c2, connectToMySQL c dsn o = (Except.error e, c2) → c2 = c := by
  constructor
  · intro o1 o2 h c1 hcall
    unfold connectToMySQL at hcall ⊢
    rcases hl : c.dbRegistry.lookup dsn with _ | db <;> rw [hl] at hcall
    · rcases o1 with e0 | db0
      · simp at hcall
      · simp only [Prod.mk.injEq, Except.ok.injEq] at hcall
        rcases hcall with ⟨hdb, hc1⟩
        subst hdb
        subst hc1
        simp [List.lookup]
    · simp only [Prod.mk.injEq, Except.ok.injEq] at hcall
      rcases hcall with ⟨hdb, hc1⟩
      subst hdb
      subst hc1
      rw [hl]
  · intro o e c2 hcall
    unfold connectToMySQL at hcall
    rcases hl : c.dbRegistry.lookup dsn with _ | db <;> rw [hl] at hcall
    · rcases o with e0 | db0
      · simp only [Prod.mk.injEq] at hcall
        exact hcall.2.symm
      · simp at hcall
    · simp at hcall

theorem connectToMySQL_idempotent_witness :
    connectToMySQL (Config.mk [("db", 7)]) "db" (Except.ok 99)
      = (Except.ok 7, Config.mk [("db", 7)]) :=
  (connectToMySQL_idempotent (Config.mk []) "db").1
    (Except.ok 7) (Except.ok 99) 7 (Config.mk [("db", 7)]) rfl

/-- C9: a grant create whose plan has both user and role set, or neither set,
is stopped by the declared config validators before the Create body runs, so
the operation fails and no SQL statement is issued against the database. -/
theorem grantCreatePipeline_structural (m : databaseGrantResourceModel)
    (execResult : Except String Unit)
    (h : (m.User ≠ none ∧ m.Role ≠ none) ∨ (m.User = none ∧ m.Role = none)) :
    grantCreatePipeline m execResult
      = (Except.error "Invalid combination of user and role arguments", []) := by
  have hv : grantConfigValidatorsOk m = false := by
    rcases h with ⟨h1, h2⟩ | ⟨h1, h2⟩
    · rcases hU : m.User with _ | u
      · exact absurd hU h1
      rcases hR : m.Role with _ | v
      · exact absurd hR h2
      simp [grantConfigValidatorsOk, conflictingOk, hU, hR, List.filter]
    · simp [grantConfigValidatorsOk, atLeastOneOfOk, h1, h2]
  simp [grantCreatePipeline, hv]

theorem grantCreatePipeline_structural_witness :
    grantCreatePipeline grantStateBoth (Except.ok ())
      = (Except.error "Invalid combination of user and role arguments", []) :=
  grantCreatePipeline_structural grantStateBoth (Except.ok ()) (by decide)
